import Mathlib

/-!
Verification of the metadata query-building and result-ranking layer of the
permit question-answering backend, shallowly embedded from
`backend/metadata/cosmos_db_service.py` (class `CosmosPermitMetaData`) and,
for the superseded agent-module variant, `permit_agent/agent_langchain.py`.

External collaborators (the Cosmos DB container, the Azure AI Search title
and content indexes, the wall clock) are modelled at their interface
boundary: the container is a list of joined (document, permit) rows together
with an evaluator for exactly the predicate fragments the code emits; the
search clients are oracle functions carried in a `Backend` record; the clock
enters as an explicit argument (`currentYear`, `current_date`).  Each
operation returns, besides its textual payload, a `Trace` recording every
external call it issued, so that properties about *which* backends were
contacted and *what* query/bindings were built are stated about the
operation itself.
-/

namespace PermitMeta

/-! ## Modelling of Python / store primitives -/

/-- Python `str.strip()`: drop leading and trailing whitespace.  Defined over
the character list so that it evaluates inside the kernel (Lean's
`String.trim` does not reduce). -/
def pyStrip (s : String) : String :=
  (((s.toList.dropWhile Char.isWhitespace).reverse.dropWhile Char.isWhitespace).reverse).asString

/-- Code-point lexicographic `<` on character lists: the comparison Python
uses for `str` (and Cosmos DB for string ranges). -/
def lexLt : List Char → List Char → Bool
  | [], [] => false
  | [], _ :: _ => true
  | _ :: _, [] => false
  | a :: as, b :: bs =>
    if a.toNat < b.toNat then true
    else if b.toNat < a.toNat then false
    else lexLt as bs

/-- Python string `<`. -/
def strLt (a b : String) : Bool := lexLt a.toList b.toList

/-- Python string `<=` (total order, so `a <= b ↔ ¬ b < a`). -/
def strLe (a b : String) : Bool := !(strLt b a)

/-- Value of a nonempty all-digit character list, `none` otherwise. -/
def digitsVal (cs : List Char) : Option Nat :=
  if cs ≠ [] ∧ cs.all Char.isDigit then
    some (cs.foldl (fun n c => n * 10 + (c.toNat - 48)) 0)
  else none

/-- Cosmos `YEAR()` applied to an ISO `YYYY-MM-DD...` date string: the value
of the first four digits; `none` (undefined, so any comparison is false) when
they are not digits.  This models the store-side date-part extraction for the
well-formed date strings the container holds. -/
def dateYear (s : String) : Option Nat := digitsVal (s.toList.take 4)

/-- Cosmos `MONTH()` on an ISO date string: the value of characters 5-6. -/
def dateMonth (s : String) : Option Nat := digitsVal ((s.toList.drop 5).take 2)

/-! ## Data model -/

/-- One row of the `SELECT ... FROM c JOIN p IN c.permits` result shape: the
document-level fields together with one permit's fields.  `filepath` and
`installation` are optional because the Python renderers read them with
`item.get(..., 'N/A')`; the other fields are read with `item[...]`. -/
structure Row where
  documentTitle : String
  permitType : String
  organization : String
  filepath : Option String := none
  issueDate : String := ""
  expirationDate : String := ""
  permitSummary : String := ""
  permitNumber : String := ""
  installation : Option String := none
deriving DecidableEq, Repr

/-- A query-parameter value (`{"name": ..., "value": ...}` carries either a
string or an integer in this layer). -/
inductive PValue
  | str (s : String)
  | num (n : Int)
deriving DecidableEq, Repr

/-- One named parameter binding, as appended to the `parameters` list. -/
structure Param where
  name : String
  value : PValue
deriving DecidableEq, Repr

/-- The predicate fragments the code appends to its `conditions` list, one
constructor per distinct SQL fragment.  Fragments that reference a named
parameter also carry the bound value so that they can be evaluated. -/
inductive Cond
  | permitTypeEq (v : String)
  | issueYearGe (y : Int)
  | issueYearLe (y : Int)
  | issueYearEq (y : Int)
  | issueMonthEq (m : Int)
  | expYearGe (y : Int)
  | expYearLe (y : Int)
  | expYearEq (y : Int)
  | orgEq (v : String)
  | regexFilepath (v : String)
  | titleIn (ts : List String)
deriving DecidableEq, Repr

/-- The fixed (`WHERE`-clause) part of each operation's base query string. -/
inductive QueryBase
  | issueYearBase
  | expYearBase
  | alreadyExpiredBase (currentDate : String)
  | allByOrgBase
deriving DecidableEq, Repr

/-- One executed metadata-store query: base shape, appended condition
fragments, and the parameter bindings passed alongside. -/
structure ExecQuery where
  base : QueryBase
  conds : List Cond
  params : List Param
deriving DecidableEq, Repr

/-- Arguments of one `title_search_client.full_text_search` call. -/
structure TitleSearchCall where
  keyword : String
  selectFields : List String
  searchFields : List String
  top : Nat
deriving DecidableEq, Repr

/-- One hit returned by the title index. -/
structure SearchDoc where
  title : String
  titleWithExtension : String
deriving DecidableEq, Repr

/-- One hit returned by the content index (semantic ranking search). -/
structure ContentDoc where
  title : String
  content : String
deriving DecidableEq, Repr

/-- External calls issued during one operation, in order within each kind. -/
structure Trace where
  queries : List ExecQuery := []
  titleSearches : List TitleSearchCall := []
  contentSearches : List String := []
  catalogLoads : Nat := 0
deriving DecidableEq, Repr

/-- The external world as seen by one operation: the container's rows, the
result of the distinct-organization catalog query, the cached
`self.main_organization` list as it stands before the call, and the two
search clients plus the store's regex matcher as oracles. -/
structure Backend where
  rows : List Row
  catalog : List String
  main_organization : List String := []
  titleSearch : TitleSearchCall → List SearchDoc
  contentSearch : String → List ContentDoc
  regexci : String → String → Bool

/-! ## Store-side query evaluation -/

/-- Evaluation of one condition fragment against a row, with the store's
case-insensitive regex matcher supplied as an oracle.  A `YEAR()`/`MONTH()`
application to a malformed date is undefined in Cosmos, hence compares
false. -/
def condHolds (regexci : String → String → Bool) (r : Row) : Cond → Bool
  | .permitTypeEq v => r.permitType == v
  | .issueYearGe y => match dateYear r.issueDate with
      | some x => y ≤ (x : Int) | none => false
  | .issueYearLe y => match dateYear r.issueDate with
      | some x => (x : Int) ≤ y | none => false
  | .issueYearEq y => match dateYear r.issueDate with
      | some x => (x : Int) == y | none => false
  | .issueMonthEq m => match dateMonth r.issueDate with
      | some x => (x : Int) == m | none => false
  | .expYearGe y => match dateYear r.expirationDate with
      | some x => y ≤ (x : Int) | none => false
  | .expYearLe y => match dateYear r.expirationDate with
      | some x => (x : Int) ≤ y | none => false
  | .expYearEq y => match dateYear r.expirationDate with
      | some x => (x : Int) == y | none => false
  | .orgEq v => r.organization == v
  | .regexFilepath v => match r.filepath with
      | some fp => regexci fp v | none => false
  | .titleIn ts => ts.contains r.documentTitle

/-- Evaluation of each base query's fixed predicate. -/
def baseHolds (r : Row) : QueryBase → Bool
  | .issueYearBase => r.issueDate != ""
  | .expYearBase => true
  | .alreadyExpiredBase cd => strLt r.expirationDate cd && r.permitType == "PLO"
  | .allByOrgBase => true

/-- Execution of a built query against the container: the rows satisfying
the base predicate and every appended condition, in store order. -/
def runQuery (be : Backend) (q : ExecQuery) : List Row :=
  be.rows.filter (fun r => baseHolds r q.base && q.conds.all (condHolds be.regexci r))

/-! ## Fragment/binding correspondence -/

/-- The parameter name a condition fragment references in the query text,
`none` for the literal `c.documentTitle IN ('...')` fragment whose values are
inlined. -/
def condParamName : Cond → Option String
  | .permitTypeEq _ => some "@permitType"
  | .issueYearGe _ => some "@year"
  | .issueYearLe _ => some "@year"
  | .issueYearEq _ => some "@year"
  | .issueMonthEq _ => some "@month"
  | .expYearGe _ => some "@year"
  | .expYearLe _ => some "@year"
  | .expYearEq _ => some "@year"
  | .orgEq _ => some "@organization"
  | .regexFilepath _ => some "@organization"
  | .titleIn _ => none

/-- Parameter names referenced by the fixed part of each base query (the
already-expired base references `@currentDate`; its `c.permitType = 'PLO'`
conjunct is a literal). -/
def baseParamNames : QueryBase → List String
  | .alreadyExpiredBase _ => ["@currentDate"]
  | _ => []

/-- All parameter names referenced by a query's text, in textual order. -/
def queryParamRefs (q : ExecQuery) : List String :=
  baseParamNames q.base ++ q.conds.filterMap condParamName

/-- The names of the bindings passed with a query, in list order. -/
def paramNames (q : ExecQuery) : List String :=
  q.params.map (fun p => p.name)

/-- A query is well-bound when referenced names and binding names agree
one-for-one and in the same order. -/
def wellBound (q : ExecQuery) : Bool :=
  queryParamRefs q == paramNames q

/-! ## Organization catalog -/

/-- The `load_main_organizations` body: cache the catalog query's result
(`items if items else []` collapses to the result itself). -/
def load_main_organizations (catalog : List String) (_st : List String) : List String :=
  catalog

/-- The `_ensure_main_organizations_loaded` body: query the catalog exactly
when the cached list is empty.  Returns the new cached list and whether the
catalog query was executed. -/
def ensure_main_organizations_loaded (catalog : List String) (st : List String) :
    List String × Bool :=
  if st.isEmpty then (load_main_organizations catalog st, true) else (st, false)

/-- State after `n` successive organization resolutions together with how
many of them executed the catalog query. -/
def ensureRuns (catalog st : List String) : Nat → List String × Nat
  | 0 => (st, 0)
  | n + 1 =>
    ((ensure_main_organizations_loaded catalog (ensureRuns catalog st n).1).1,
     (ensureRuns catalog st n).2 +
       (if (ensure_main_organizations_loaded catalog (ensureRuns catalog st n).1).2
        then 1 else 0))

/-- The organization list an operation sees after its
`_ensure_main_organizations_loaded()` call. -/
def ensuredOrganizations (be : Backend) : List String :=
  if be.main_organization.isEmpty then be.catalog else be.main_organization

/-- Number of catalog queries that ensure call performs. -/
def ensureLoads (be : Backend) : Nat :=
  if be.main_organization.isEmpty then 1 else 0

/-! ## Python truthiness of the optional arguments -/

/-- Python truthiness of an optional string (`None` and `""` are falsy). -/
def truthyStr : Option String → Bool
  | none => false
  | some s => s != ""

/-- Python truthiness of an optional int (`None` and `0` are falsy). -/
def truthyInt : Option Int → Bool
  | none => false
  | some n => n != 0

/-! ## Sorting and rendering -/

/-- Python `items.sort(key=lambda x: x.get(field, ''), reverse=(order_by == 'latest'))`:
a stable sort on the date key, descending exactly when `order_by` equals
`'latest'` (so an explicit `None` or `'earliest'` sorts ascending). -/
def sortByDate (key : Row → String) (order_by : Option String) (items : List Row) : List Row :=
  if order_by == some "latest" then
    items.mergeSort (fun a b => strLe (key b) (key a))
  else
    items.mergeSort (fun a b => strLe (key a) (key b))

/-- The per-item block rendered by `get_list_documents_by_issue_year`. -/
def formatIssueItem (r : Row) : String :=
  "- " ++ r.documentTitle ++ " - Permit Number: " ++ r.permitNumber ++ " " ++
  "\n  (Org: " ++ r.organization ++ ", Issue Date: " ++ r.issueDate ++ ")" ++
  "\n  Document path: " ++ (r.filepath.getD "N/A") ++ " " ++
  "\n  Summary: " ++ r.permitSummary

/-- The per-item block rendered by `get_list_documents_by_expiration_year`. -/
def formatExpItem (r : Row) : String :=
  "- " ++ r.documentTitle ++ " - Permit Number: " ++ r.permitNumber ++ " " ++
  "\n  (Org: " ++ r.organization ++ ", Expires: " ++ r.expirationDate ++ ")" ++
  "\n  Document path: " ++ (r.filepath.getD "N/A") ++ " " ++
  "\n  Summary: " ++ r.permitSummary

/-- The per-item block rendered by `get_list_documents_already_expired`. -/
def formatExpiredItem (r : Row) : String :=
  "- " ++ r.documentTitle ++ " - Permit Number: " ++ r.permitNumber ++ " " ++
  "\n  (Org: " ++ r.organization ++ ", Installation " ++ (r.installation.getD "N/A") ++
  ", Expired: " ++ r.expirationDate ++ ")" ++
  "\n  Document path: " ++ (r.filepath.getD "N/A") ++ " " ++
  "\n  Summary: " ++ r.permitSummary

/-- The count header of the issued-by-year payload. -/
def issueCountHeader (n : Nat) : String :=
  "List of documents issued is " ++ toString n ++ " items:"

/-- The issue-date year comparison fragment selected by the operator
(`greater` ↦ `>=`, `less` ↦ `<=`, anything else ↦ `=`; boundary-inclusive,
mirroring lines 132-137). -/
def issueYearCondOf (operator : Option String) (y : Int) : Cond :=
  if operator == some "greater" then .issueYearGe y
  else if operator == some "less" then .issueYearLe y
  else .issueYearEq y

/-- The expiration-date year comparison fragment selected by the operator
(lines 254-259). -/
def expYearCondOf (operator : Option String) (y : Int) : Cond :=
  if operator == some "greater" then .expYearGe y
  else if operator == some "less" then .expYearLe y
  else .expYearEq y

/-- Whether a fragment is one of the three issue-year comparisons. -/
def isIssueYearCond : Cond → Bool
  | .issueYearGe _ => true
  | .issueYearLe _ => true
  | .issueYearEq _ => true
  | _ => false

/-- Whether a condition list carries any issue-year comparison. -/
def hasIssueYearCond (cs : List Cond) : Bool := cs.any isIssueYearCond

/-- The claim's reading of truncation-after-sort: under `latest` every
dropped item's key is `<=` every kept item's key, under any other ordering
the reverse. -/
def dominatesBy (key : Row → String) (order_by : Option String)
    (dropped kept : List Row) : Bool :=
  if order_by == some "latest" then
    dropped.all fun x => kept.all fun y => strLe (key x) (key y)
  else
    dropped.all fun x => kept.all fun y => strLe (key y) (key x)

/-! ## get_list_documents_by_issue_year -/

/-- Conditions and parameters built by the `permit_type` / `operator and year`
/ `year and month` blocks of `get_list_documents_by_issue_year` (lines
118-141).  The `year = datetime.now().year` default inside the
`if operator and year:` block is dead code in the source — the guard already
requires `year` truthy — and is mirrored here by `getD currentYear`, which
likewise never fires under the guard. -/
def issueYearCondsParams (permit_type : Option String) (year month : Option Int)
    (operator : Option String) (currentYear : Int) : List Cond × List Param :=
  let cp : List Cond × List Param := ([], [])
  let cp :=
    if truthyStr permit_type then
      (cp.1 ++ [.permitTypeEq (permit_type.getD "")],
       cp.2 ++ [⟨"@permitType", .str (permit_type.getD "")⟩])
    else cp
  let cp :=
    if truthyStr operator && truthyInt year then
      let y := year.getD currentYear
      (cp.1 ++ [issueYearCondOf operator y], cp.2 ++ [⟨"@year", .num y⟩])
    else cp
  if truthyInt year && truthyInt month then
    (cp.1 ++ [.issueMonthEq (month.getD 0)], cp.2 ++ [⟨"@month", .num (month.getD 0)⟩])
  else cp

/-- The title-search request issued by the issued-by-year fallback (lines
167-172): trimmed organization as keyword over the `title` field, top 10. -/
def issueYearTitleCall (organization : String) : TitleSearchCall :=
  ⟨pyStrip organization, ["title", "titleWithExtension"], ["title"], 10⟩

/-- Query phase of `get_list_documents_by_issue_year` (lines 110-192): builds
conditions, and — only when an organization is given — resolves it, executes
the query, and on an empty result retries with the title allow-list before
returning early.  Result `none` models the early
`return "No documents found issued in this year."`; `some items` carries the
items that reach the sort/format tail. -/
def issueYearPhase (be : Backend) (permit_type : Option String) (year month : Option Int)
    (organization : Option String) (operator : Option String) (currentYear : Int) :
    Option (List Row) × Trace :=
  let cp := issueYearCondsParams permit_type year month operator currentYear
  if truthyStr organization then
    let orgS := organization.getD ""
    let orgs := ensuredOrganizations be
    let orgCond : Cond :=
      if orgs.contains (pyStrip orgS) then .orgEq orgS else .regexFilepath orgS
    let q1 : ExecQuery :=
      ⟨.issueYearBase, cp.1 ++ [orgCond], cp.2 ++ [⟨"@organization", .str orgS⟩]⟩
    let items1 := runQuery be q1
    if items1.isEmpty then
      let call := issueYearTitleCall orgS
      let titles := (be.titleSearch call).map (fun d => d.titleWithExtension)
      let q2 : ExecQuery := ⟨.issueYearBase, cp.1 ++ [.titleIn titles], q1.params⟩
      let items2 := runQuery be q2
      let tr : Trace := ⟨[q1, q2], [call], [], ensureLoads be⟩
      if items2.isEmpty then (none, tr) else (some items2, tr)
    else
      (some items1, ⟨[q1], [], [], ensureLoads be⟩)
  else
    (some [], ⟨[], [], [], 0⟩)

/-- `get_list_documents_by_issue_year` (lines 77-210).  `currentYear` stands
for `datetime.now().year`.  Returns the textual payload and the trace of
external calls. -/
def get_list_documents_by_issue_year (be : Backend) (currentYear : Int)
    (permit_type : Option String := none) (year : Option Int := none)
    (month : Option Int := none) (organization : Option String := none)
    (operator : Option String := none) (order_by : Option String := some "latest") :
    String × Trace :=
  match issueYearPhase be permit_type year month organization operator currentYear with
  | (none, tr) => ("No documents found issued in this year.", tr)
  | (some items, tr) =>
    let sorted := sortByDate (fun r => r.issueDate) order_by items
    let filtered_items := sorted.take 20
    let n := filtered_items.length
    let result_list := issueCountHeader n :: filtered_items.map formatIssueItem
    (String.intercalate "\n" result_list, tr)

/-! ## get_list_documents_by_expiration_year -/

/-- Conditions and parameters built by the `permit_type` / `operator` blocks
of `get_list_documents_by_expiration_year` (lines 245-259).  Here the
current-year default is live: the guard is `if operator:` alone. -/
def expYearCondsParams (permit_type : Option String) (year : Option Int)
    (operator : Option String) (currentYear : Int) : List Cond × List Param :=
  let cp : List Cond × List Param := ([], [])
  let cp :=
    if truthyStr permit_type then
      (cp.1 ++ [.permitTypeEq (permit_type.getD "")],
       cp.2 ++ [⟨"@permitType", .str (permit_type.getD "")⟩])
    else cp
  if truthyStr operator then
    let y := year.getD currentYear
    (cp.1 ++ [expYearCondOf operator y], cp.2 ++ [⟨"@year", .num y⟩])
  else cp

/-- The title-search request issued by the expiring-by-year unknown-organization
branch (lines 267-272). -/
def expYearTitleCall (organization : String) : TitleSearchCall :=
  ⟨pyStrip organization, ["title", "titleWithExtension"], ["title", "titleWithExtension"], 10⟩

/-- `get_list_documents_by_expiration_year` (lines 212-309).  `currentYear`
stands for `datetime.now().year`. -/
def get_list_documents_by_expiration_year (be : Backend) (currentYear : Int)
    (permit_type : Option String := some "PLO") (year : Option Int := none)
    (organization : Option String := none) (operator : Option String := none)
    (order_by : Option String := some "latest") : String × Trace :=
  let cp := expYearCondsParams permit_type year operator currentYear
  let resolved :=
    if truthyStr organization then
      let orgS := organization.getD ""
      let orgs := ensuredOrganizations be
      if orgs.contains (pyStrip orgS) then
        ((cp.1 ++ [.orgEq orgS], cp.2 ++ [⟨"@organization", .str orgS⟩]),
         ([] : List TitleSearchCall), ensureLoads be)
      else
        let call := expYearTitleCall orgS
        let titles := (be.titleSearch call).map (fun d => d.titleWithExtension)
        ((cp.1 ++ [.titleIn titles], cp.2), [call], ensureLoads be)
    else
      (cp, [], 0)
  let q : ExecQuery := ⟨.expYearBase, resolved.1.1, resolved.1.2⟩
  let tr : Trace := ⟨[q], resolved.2.1, [], resolved.2.2⟩
  let items := runQuery be q
  if items.isEmpty then
    ("No documents found expiring in this year.", tr)
  else
    let sorted := sortByDate (fun r => r.expirationDate) order_by items
    (String.intercalate "\n" (sorted.map formatExpItem), tr)

/-! ## get_list_documents_already_expired -/

/-- The title-search request issued by the already-expired
unknown-organization branch (lines 349-354). -/
def expiredTitleCall (organization : String) : TitleSearchCall :=
  ⟨pyStrip organization, ["title", "titleWithExtension"], ["title", "titleWithExtension"], 10⟩

/-- `get_list_documents_already_expired` (lines 311-390).  `current_date`
stands for `datetime.now().strftime("%Y-%m-%d")`, computed once per call. -/
def get_list_documents_already_expired (be : Backend) (current_date : String)
    (organization : Option String := none) (order_by : Option String := some "latest") :
    String × Trace :=
  let params0 : List Param := [⟨"@currentDate", .str current_date⟩]
  let resolved :=
    if truthyStr organization then
      let orgS := organization.getD ""
      let orgs := ensuredOrganizations be
      if orgs.contains (pyStrip orgS) then
        (([.orgEq orgS] : List Cond), params0 ++ [⟨"@organization", .str orgS⟩],
         ([] : List TitleSearchCall), ensureLoads be)
      else
        let call := expiredTitleCall orgS
        let titles := (be.titleSearch call).map (fun d => d.titleWithExtension)
        (([.titleIn titles] : List Cond), params0, [call], ensureLoads be)
    else
      ([], params0, [], 0)
  let q : ExecQuery := ⟨.alreadyExpiredBase current_date, resolved.1, resolved.2.1⟩
  let tr : Trace := ⟨[q], resolved.2.2.1, [], resolved.2.2.2⟩
  let items := runQuery be q
  if items.isEmpty then
    ("No documents have expired.", tr)
  else
    let sorted := sortByDate (fun r => r.expirationDate) order_by items
    let header := "Now is " ++ current_date ++ ". The following documents have already expired:"
    (String.intercalate "\n" (header :: sorted.map formatExpiredItem), tr)

/-! ## get_list_all_documents_by_organization (cosmos_db_service version) -/

/-- The title-search request issued by the all-by-organization
unknown-organization branch (lines 508-513). -/
def allByOrgTitleCall (organization : String) : TitleSearchCall :=
  ⟨pyStrip organization, ["title", "titleWithExtension"], ["title"], 10⟩

/-- Per-item block of the all-by-organization payload, PLO shape (lines
540-547, with issue and expiration dates). -/
def formatAllByOrgPLO (r : Row) : String :=
  "- " ++ r.documentTitle ++ " " ++
  "\n  - Permit Number: " ++ r.permitNumber ++ " " ++
  "\n  - (Org: " ++ r.organization ++ ", Issue Date: " ++ r.issueDate ++
  ", Expiration Date: " ++ r.expirationDate ++ ")" ++
  "\n  - Document path: " ++ (r.filepath.getD "N/A") ++ " " ++
  "\n  - Summary: " ++ r.permitSummary

/-- Per-item block of the all-by-organization payload, non-PLO shape (lines
549-556, issue date only). -/
def formatAllByOrgOther (r : Row) : String :=
  "- " ++ r.documentTitle ++ " " ++
  "\n  - Permit Number: " ++ r.permitNumber ++ " " ++
  "\n  - (Org: " ++ r.organization ++ ", Issue Date: " ++ r.issueDate ++ ")" ++
  "\n  - Document path: " ++ (r.filepath.getD "N/A") ++ " " ++
  "\n  - Summary: " ++ r.permitSummary

/-- The `result_list` of `get_list_all_documents_by_organization` (lines
532-556): empty input yields the none-found sentence; otherwise a header and
one block per item, where only the `permit_type == 'PLO'` branch iterates the
truncated `filtered_items = items[:30]` — the `else` branch iterates the full
`items` list. -/
def all_by_org_result_list (permit_type organization : String) (items : List Row) :
    List String :=
  if items.isEmpty then
    ["No documents found for the specified organization."]
  else
    let filtered_items := items.take 30
    let header := "List of documents for organization " ++ organization ++ " items:"
    if permit_type == "PLO" then
      header :: filtered_items.map formatAllByOrgPLO
    else
      header :: items.map formatAllByOrgOther

/-- `get_list_all_documents_by_organization` of `cosmos_db_service.py` (lines
468-562).  Note: the `keyword` argument, documented in the source as the
Azure AI Search keyword, is never used by the body; no content search is
issued and no ordering is applied. -/
def get_list_all_documents_by_organization (be : Backend)
    (organization permit_type keyword : String) : String × Trace :=
  let cp : List Cond × List Param :=
    if permit_type != "" then
      ([.permitTypeEq permit_type], [⟨"@permitType", .str permit_type⟩])
    else ([], [])
  let resolved :=
    if organization != "" then
      let orgs := ensuredOrganizations be
      if orgs.contains (pyStrip organization) then
        ((cp.1 ++ [.orgEq organization], cp.2 ++ [⟨"@organization", .str organization⟩]),
         ([] : List TitleSearchCall), ensureLoads be)
      else
        let call := allByOrgTitleCall organization
        let titles := (be.titleSearch call).map (fun d => d.titleWithExtension)
        ((cp.1 ++ [.titleIn titles], cp.2), [call], ensureLoads be)
    else
      (cp, [], 0)
  let q : ExecQuery := ⟨.allByOrgBase, resolved.1.1, resolved.1.2⟩
  let tr : Trace := ⟨[q], resolved.2.1, [], resolved.2.2⟩
  let items := runQuery be q
  let cosmos_result := String.intercalate "\n" (all_by_org_result_list permit_type organization items)
  let _ := keyword
  ("========Metadata DB Results========:\n\n" ++ cosmos_result, tr)

/-! ## get_list_all_documents_by_organization (permit_agent/agent_langchain.py
variant, lines 499-568): the superseded agent-module implementation, which —
unlike the `cosmos_db_service.py` version above — always performs a semantic
content search with the caller's keyword and concatenates both labeled
sections.  `MAIN_ORGANIZATIONS` is a module-level constant there, modelled by
`be.main_organization` with no lazy-load step. -/

namespace AgentLC

/-- Per-item block of the agent-module all-by-organization payload. -/
def formatAgentItem (r : Row) : String :=
  "- " ++ r.documentTitle ++ " - " ++ r.permitNumber ++ " " ++
  "\n  (Org: " ++ r.organization ++ ", Issue Date: " ++ r.issueDate ++
  ", Expiration Date: " ++ r.expirationDate ++ ")" ++
  "\n  Document path: " ++ (r.filepath.getD "N/A") ++ " " ++
  "\nSummary: " ++ r.permitSummary

/-- The agent-module `get_list_all_documents_by_organization`. -/
def get_list_all_documents_by_organization (be : Backend)
    (organization permit_type keyword : String) : String × Trace :=
  let cp : List Cond × List Param :=
    if permit_type != "" then
      ([.permitTypeEq permit_type], [⟨"@permitType", .str permit_type⟩])
    else ([], [])
  let resolved :=
    if organization != "" then
      if be.main_organization.contains (pyStrip organization) then
        ((cp.1 ++ [.orgEq organization], cp.2 ++ [⟨"@organization", .str organization⟩]),
         ([] : List TitleSearchCall))
      else
        let call : TitleSearchCall :=
          ⟨pyStrip organization, ["title", "titleWithExtension"],
           ["title", "titleWithExtension"], 10⟩
        let titles := (be.titleSearch call).map (fun d => d.titleWithExtension)
        ((cp.1 ++ [.titleIn titles], cp.2), [call])
    else (cp, [])
  let q : ExecQuery := ⟨.allByOrgBase, resolved.1.1, resolved.1.2⟩
  let items := runQuery be q
  let hits := be.contentSearch keyword
  let tr : Trace := ⟨[q], resolved.2, [keyword], 0⟩
  if items.isEmpty then
    ("No documents found for the specified organization.", tr)
  else
    let n := items.length
    let header := "List of documents for organization " ++ organization ++ " is " ++
      toString n ++ " items:"
    let cosmos_result := String.intercalate "\n" (header :: items.map formatAgentItem)
    let vector_result := String.intercalate "\n"
      (hits.map (fun d => d.title ++ ": " ++ d.content))
    ("Content Search Results:\n" ++ vector_result ++
     "\n\nMetadata DB Results:\n" ++ cosmos_result, tr)

end AgentLC

/-! ## Concrete fixtures for counterexamples and witnesses -/

/-- A backend with an empty container, an empty catalog, and search oracles
that return nothing. -/
def emptyBE : Backend where
  rows := []
  catalog := []
  titleSearch := fun _ => []
  contentSearch := fun _ => []
  regexci := fun _ _ => false

/-- A PLO permit row that expired on 2023-01-15. -/
def expiredRow : Row where
  documentTitle := "PLO Doc"
  permitType := "PLO"
  organization := "PGN"
  filepath := some "plo/doc.pdf"
  expirationDate := "2023-01-15"
  permitSummary := "summary"
  permitNumber := "PLO-1"

/-- A KKPR permit row issued on 2022-03-01. -/
def kkprRow : Row where
  documentTitle := "KKPR Doc"
  permitType := "KKPR"
  organization := "PGN"
  filepath := some "kkpr/doc.pdf"
  issueDate := "2022-03-01"
  permitSummary := "summary"
  permitNumber := "KKPR-1"

/-- Backend whose catalog knows `PGN` and whose container holds one expired
PLO row and one KKPR row. -/
def pgnBE : Backend where
  rows := [expiredRow, kkprRow]
  catalog := ["PGN"]
  titleSearch := fun _ => []
  contentSearch := fun _ => []
  regexci := fun _ _ => false

/-- Backend with an unknown-organization container row whose filepath matches
every regex (regex oracle constantly true). -/
def regexBE : Backend where
  rows := [kkprRow]
  catalog := []
  titleSearch := fun _ => []
  contentSearch := fun _ => []
  regexci := fun _ _ => true

/-- Thirty-one identical KKPR rows: more matches than the 30-item cap of the
all-by-organization operation. -/
def rows31 : List Row := List.replicate 31 kkprRow

/-- Backend holding the 31 KKPR rows, with `PGN` in the catalog. -/
def be31 : Backend where
  rows := rows31
  catalog := ["PGN"]
  titleSearch := fun _ => []
  contentSearch := fun _ => []
  regexci := fun _ _ => false

/-! ## Order lemmas for the Python string comparison -/

theorem lexLt_irrefl (as : List Char) : lexLt as as = false := by
  induction as with
  | nil => rfl
  | cons a as ih => simp [lexLt, ih]

theorem lexLt_trans : ∀ (as bs cs : List Char),
    lexLt as bs = true → lexLt bs cs = true → lexLt as cs = true := by
  intro as
  induction as with
  | nil =>
    intro bs cs h1 h2
    cases bs with
    | nil => simp [lexLt] at h1
    | cons b bs =>
      cases cs with
      | nil => simp [lexLt] at h2
      | cons c cs => simp [lexLt]
  | cons a as ih =>
    intro bs cs h1 h2
    cases bs with
    | nil => simp [lexLt] at h1
    | cons b bs =>
      cases cs with
      | nil => simp [lexLt] at h2
      | cons c cs =>
        simp only [lexLt] at h1 h2 ⊢
        rcases Nat.lt_trichotomy a.toNat b.toNat with hab | hab | hab
        · rcases Nat.lt_trichotomy b.toNat c.toNat with hbc | hbc | hbc
          · simp [Nat.lt_trans hab hbc]
          · have hac : a.toNat < c.toNat := by omega
            simp [hac]
          · simp [Nat.lt_asymm hbc, hbc] at h2
        · rcases Nat.lt_trichotomy b.toNat c.toNat with hbc | hbc | hbc
          · have hac : a.toNat < c.toNat := by omega
            simp [hac]
          · have hac : a.toNat = c.toNat := by omega
            simp [hab, lt_self_iff_false] at h1
            simp [hbc, lt_self_iff_false] at h2
            simp [hac, lt_self_iff_false]
            exact ih bs cs h1 h2
          · simp [Nat.lt_asymm hbc, hbc] at h2
        · simp [Nat.lt_asymm hab, hab] at h1

theorem lexLt_connex : ∀ (as bs : List Char),
    lexLt as bs = true ∨ lexLt bs as = true ∨ as = bs := by
  intro as
  induction as with
  | nil =>
    intro bs
    cases bs with
    | nil => right; right; rfl
    | cons b bs => left; rfl
  | cons a as ih =>
    intro bs
    cases bs with
    | nil => right; left; rfl
    | cons b bs =>
      rcases Nat.lt_trichotomy a.toNat b.toNat with h | h | h
      · left; simp [lexLt, h]
      · have hab : a = b := Char.eq_of_val_eq (UInt32.toNat.inj h)
        subst hab
        rcases ih bs with h2 | h2 | h2
        · left; simp [lexLt, lt_self_iff_false, h2]
        · right; left; simp [lexLt, lt_self_iff_false, h2]
        · right; right; rw [h2]
      · right; left; simp [lexLt, h]

theorem strLe_trans (a b c : String) (h1 : strLe a b = true) (h2 : strLe b c = true) :
    strLe a c = true := by
  unfold strLe strLt at *
  simp only [Bool.not_eq_true'] at h1 h2 ⊢
  by_contra hca
  rw [Bool.not_eq_false] at hca
  rcases lexLt_connex a.toList b.toList with h | h | h
  · have := lexLt_trans _ _ _ hca h
    rw [this] at h2
    exact absurd h2 (by simp)
  · rw [h] at h1
    exact absurd h1 (by simp)
  · rw [h] at hca
    rw [hca] at h2
    exact absurd h2 (by simp)

theorem strLe_total (a b : String) : (strLe a b || strLe b a) = true := by
  unfold strLe strLt
  cases hba : lexLt b.toList a.toList with
  | false => simp
  | true =>
    cases hab : lexLt a.toList b.toList with
    | false => simp
    | true =>
      have h := lexLt_trans _ _ _ hab hba
      rw [lexLt_irrefl] at h
      exact absurd h (by simp)

/-! ## Sorting lemmas -/

theorem sortByDate_sorted_latest (key : Row → String) (items : List Row) :
    List.Pairwise (fun a b => strLe (key b) (key a) = true)
      (sortByDate key (some "latest") items) := by
  unfold sortByDate
  simp only [beq_self_eq_true, if_true]
  exact List.sorted_mergeSort
    (fun a b c h1 h2 => strLe_trans (key c) (key b) (key a) h2 h1)
    (fun a b => strLe_total (key b) (key a)) items

theorem sortByDate_sorted_other (key : Row → String) (order_by : Option String)
    (hob : (order_by == some "latest") = false) (items : List Row) :
    List.Pairwise (fun a b => strLe (key a) (key b) = true)
      (sortByDate key order_by items) := by
  unfold sortByDate
  rw [hob]
  simp only [Bool.false_eq_true, if_false]
  exact List.sorted_mergeSort
    (fun a b c h1 h2 => strLe_trans (key a) (key b) (key c) h1 h2)
    (fun a b => strLe_total (key a) (key b)) items

theorem pairwise_take_drop {α : Type} {R : α → α → Prop} {l : List α}
    (h : List.Pairwise R l) (n : Nat) :
    ∀ x ∈ l.take n, ∀ y ∈ l.drop n, R x y := by
  have hsplit : List.Pairwise R (l.take n ++ l.drop n) := by
    rw [List.take_append_drop]
    exact h
  exact (List.pairwise_append.mp hsplit).2.2

theorem sortByDate_drop_dominates (key : Row → String) (order_by : Option String)
    (items : List Row) (n : Nat) :
    dominatesBy key order_by ((sortByDate key order_by items).drop n)
      ((sortByDate key order_by items).take n) = true := by
  unfold dominatesBy
  cases hob : (order_by == some "latest") with
  | true =>
    rw [if_pos rfl]
    simp only [List.all_eq_true]
    intro x hx y hy
    have hob2 : order_by = some "latest" := by
      cases order_by with
      | none => simp at hob
      | some s => simpa using hob
    subst hob2
    exact pairwise_take_drop (sortByDate_sorted_latest key items) n y hy x hx
  | false =>
    rw [if_neg (by simp)]
    simp only [List.all_eq_true]
    intro x hx y hy
    exact pairwise_take_drop (sortByDate_sorted_other key order_by hob items) n y hy x hx

theorem sortByDate_length (key : Row → String) (order_by : Option String)
    (items : List Row) : (sortByDate key order_by items).length = items.length := by
  unfold sortByDate
  cases (order_by == some "latest") <;> simp [List.length_mergeSort]

/-! ## Fragment/binding lemmas -/

theorem condParamName_issueYearCondOf (op : Option String) (y : Int) :
    condParamName (issueYearCondOf op y) = some "@year" := by
  unfold issueYearCondOf
  repeat' split
  all_goals rfl

theorem condParamName_expYearCondOf (op : Option String) (y : Int) :
    condParamName (expYearCondOf op y) = some "@year" := by
  unfold expYearCondOf
  repeat' split
  all_goals rfl

theorem condParamName_permitTypeEq (v : String) :
    condParamName (.permitTypeEq v) = some "@permitType" := rfl

theorem condParamName_issueMonthEq (m : Int) :
    condParamName (.issueMonthEq m) = some "@month" := rfl

theorem condParamName_orgEq (v : String) :
    condParamName (.orgEq v) = some "@organization" := rfl

theorem condParamName_regexFilepath (v : String) :
    condParamName (.regexFilepath v) = some "@organization" := rfl

theorem condParamName_titleIn (ts : List String) :
    condParamName (.titleIn ts) = none := rfl

theorem issueYearCondsParams_refs (pt : Option String) (y m : Option Int)
    (op : Option String) (cy : Int) :
    (issueYearCondsParams pt y m op cy).1.filterMap condParamName =
      (issueYearCondsParams pt y m op cy).2.map (fun p => p.name) := by
  by_cases h1 : truthyStr pt = true <;>
  by_cases h2 : (truthyStr op && truthyInt y) = true <;>
  by_cases h3 : (truthyInt y && truthyInt m) = true <;>
    simp [issueYearCondsParams, h1, h2, h3, List.filterMap_cons, List.filterMap_append,
      condParamName_issueYearCondOf, condParamName_permitTypeEq, condParamName_issueMonthEq]

theorem expYearCondsParams_refs (pt : Option String) (y : Option Int)
    (op : Option String) (cy : Int) :
    (expYearCondsParams pt y op cy).1.filterMap condParamName =
      (expYearCondsParams pt y op cy).2.map (fun p => p.name) := by
  by_cases h1 : truthyStr pt = true <;>
  by_cases h2 : truthyStr op = true <;>
    simp [expYearCondsParams, h1, h2, List.filterMap_cons, List.filterMap_append,
      condParamName_expYearCondOf, condParamName_permitTypeEq]

theorem issueYear_trace_eq (be : Backend) (cy : Int) (pt : Option String)
    (y m : Option Int) (org op ob : Option String) :
    (get_list_documents_by_issue_year be cy pt y m org op ob).2 =
      (issueYearPhase be pt y m org op cy).2 := by
  unfold get_list_documents_by_issue_year
  rcases hph : issueYearPhase be pt y m org op cy with ⟨res, tr⟩
  cases res <;> rfl

theorem issueYearPhase_queries_bound (be : Backend) (cy : Int) (pt : Option String)
    (y m : Option Int) (org op : Option String) :
    ((issueYearPhase be pt y m org op cy).2.queries.all fun q =>
      wellBound q || ((queryParamRefs q ++ ["@organization"]) == paramNames q)) = true := by
  unfold issueYearPhase
  by_cases h1 : truthyStr org = true
  · rw [if_pos h1]
    dsimp only
    split_ifs <;>
      simp [wellBound, queryParamRefs, paramNames, baseParamNames,
        List.filterMap_append, List.filterMap_cons, issueYearCondsParams_refs,
        condParamName_orgEq, condParamName_regexFilepath, condParamName_titleIn]
  · rw [if_neg h1]
    rfl

theorem expYearCondsParams_default_year (pt : Option String) (op : Option String)
    (cy : Int) (hop : truthyStr op = true) :
    expYearCondOf op cy ∈ (expYearCondsParams pt none op cy).1 := by
  by_cases h1 : truthyStr pt = true <;> simp [expYearCondsParams, h1, hop]

theorem issueYearCondsParams_no_year (pt : Option String) (m : Option Int)
    (op : Option String) (cy : Int) :
    (issueYearCondsParams pt none m op cy).1.any isIssueYearCond = false := by
  by_cases h1 : truthyStr pt = true <;>
    simp [issueYearCondsParams, truthyInt, h1, isIssueYearCond]

theorem issueYearPhase_no_year (be : Backend) (cy : Int) (pt : Option String)
    (m : Option Int) (org op : Option String) :
    ((issueYearPhase be pt none m org op cy).2.queries.all
      fun q => !(hasIssueYearCond q.conds)) = true := by
  unfold issueYearPhase
  by_cases h1 : truthyStr org = true
  · rw [if_pos h1]
    dsimp only
    split_ifs <;>
      simp [hasIssueYearCond, List.any_append, isIssueYearCond, issueYearCondsParams_no_year]
  · rw [if_neg h1]
    rfl

/-! ## Claim theorems -/

/-- C2: when the `organization` argument is absent,
`get_list_documents_by_issue_year` executes no query against the metadata
store at all (its trace is empty: no item query, no title search, no catalog
load) and returns exactly the string `List of documents issued is 0 items:`,
regardless of the other arguments and of the store's contents. -/
theorem C2_no_org_no_query (be : Backend) (cy : Int) (pt : Option String)
    (y m : Option Int) (op ob : Option String) :
    get_list_documents_by_issue_year be cy pt y m none op ob =
      ("List of documents issued is 0 items:", ⟨[], [], [], 0⟩) := by
  unfold get_list_documents_by_issue_year issueYearPhase
  simp [truthyStr, sortByDate, issueCountHeader, List.mergeSort_nil]
  rfl

/-- C1 (code evaluation): at the claim's own instance —
`permit_type="KKPR", year=2023, operator="equal"`, no organization, empty
store — the code returns `List of documents issued is 0 items:` with an
empty call trace, not `No documents found issued in this year.` as the
claim states. -/
theorem C1_code_eval :
    get_list_documents_by_issue_year emptyBE 2026 (some "KKPR") (some 2023) none none
      (some "equal") (some "latest") =
    ("List of documents issued is 0 items:", ⟨[], [], [], 0⟩) := by
  unfold get_list_documents_by_issue_year issueYearPhase
  simp [truthyStr, sortByDate, issueCountHeader, List.mergeSort_nil]
  rfl

/-- C3 (code evaluation): the `cosmos_db_service.py`
`get_list_all_documents_by_organization` never contacts the content-search
backend — its trace records no content search for any arguments — and its
payload is the single `========Metadata DB Results========:` section, with
no content-search section, contradicting the claim that every call fans out
to both backends and merges two labeled sections. -/
theorem C3_no_content_search (be : Backend) (org pt kw : String) :
    (get_list_all_documents_by_organization be org pt kw).2.contentSearches = [] ∧
    ∃ s, (get_list_all_documents_by_organization be org pt kw).1 =
      "========Metadata DB Results========:\n\n" ++ s := by
  unfold get_list_all_documents_by_organization
  exact ⟨rfl, ⟨_, rfl⟩⟩

/-- C8: every row the already-expired query returns has permit type `PLO`
and an expiration date strictly below the per-call current date (string
comparison on `YYYY-MM-DD`), for every backend, organization argument and
ordering — the fixed base predicate guarantees it regardless of the
organization-resolution branch. -/
theorem C8_only_expired_plo (be : Backend) (cd : String) (org ob : Option String) :
    ((get_list_documents_already_expired be cd org ob).2.queries.all fun q =>
      (runQuery be q).all fun r =>
        (r.permitType == "PLO") && strLt r.expirationDate cd) = true := by
  unfold get_list_documents_already_expired
  simp only [apply_ite Prod.snd, ite_self]
  simp only [List.all_cons, List.all_nil, Bool.and_true, List.all_eq_true]
  intro r hr
  unfold runQuery at hr
  rw [List.mem_filter] at hr
  have hp := hr.2
  simp only [baseHolds, Bool.and_eq_true] at hp
  simp [hp.1.1, hp.1.2]

theorem ensureRuns_state (catalog : List String) (n : Nat) :
    (ensureRuns catalog [] n).1 = if n = 0 then [] else catalog := by
  induction n with
  | zero => rfl
  | succ k ih =>
    unfold ensureRuns
    rw [ih]
    by_cases hk : k = 0
    · subst hk
      simp [ensure_main_organizations_loaded, load_main_organizations]
    · simp only [hk, if_false]
      unfold ensure_main_organizations_loaded load_main_organizations
      by_cases hc : catalog.isEmpty = true
      · simp [hc, List.isEmpty_iff.mp hc]
      · simp [hc]

/-- C10: starting from the empty cache, a nonempty catalog-query result is
cached after the first resolution and never re-queried (`n` resolutions
execute the catalog query exactly once for `n ≥ 1`), while an empty result
is never cached, so all `n` resolutions re-execute the catalog query. -/
theorem C10_catalog_cache (catalog : List String) (n : Nat) :
    (catalog ≠ [] → (ensureRuns catalog [] n).2 = if n = 0 then 0 else 1) ∧
    (catalog = [] → (ensureRuns catalog [] n).2 = n) := by
  constructor
  · intro hne
    induction n with
    | zero => rfl
    | succ k ih =>
      unfold ensureRuns
      rw [ih, ensureRuns_state]
      have hc : catalog.isEmpty = false := by
        cases catalog with
        | nil => exact absurd rfl hne
        | cons a l => rfl
      by_cases hk : k = 0
      · subst hk
        simp [ensure_main_organizations_loaded]
      · simp [hk, ensure_main_organizations_loaded, hc]
  · intro he
    subst he
    induction n with
    | zero => rfl
    | succ k ih =>
      unfold ensureRuns
      rw [ih, ensureRuns_state]
      by_cases hk : k = 0
      · subst hk
        simp [ensure_main_organizations_loaded, load_main_organizations]
      · simp [hk, ensure_main_organizations_loaded, load_main_organizations]

/-- C10 witness: with catalog `["PGN"]`, three resolutions load once; with an
empty catalog result, three resolutions load three times. -/
theorem C10_witness :
    (ensureRuns ["PGN"] [] 3).2 = 1 ∧ (ensureRuns ([] : List String) [] 3).2 = 3 :=
  ⟨(C10_catalog_cache ["PGN"] 3).1 (by decide), (C10_catalog_cache [] 3).2 rfl⟩

/-- C4 (amended): when an operator is given and `year` is absent,
expiring-by-year adds its year predicate with the year defaulted to the
current year, but issued-by-year adds no year predicate at all (its guard
`if operator and year:` requires both, so the in-body defaulting is dead
code). -/
theorem C4_amended (be : Backend) (cy : Int) (pt : Option String) (m : Option Int)
    (org operator ob : Option String) (hop : truthyStr operator = true) :
    ((get_list_documents_by_expiration_year be cy pt none org operator ob).2.queries.all
      fun q => q.conds.contains (expYearCondOf operator cy)) = true ∧
    ((get_list_documents_by_issue_year be cy pt none m org operator ob).2.queries.all
      fun q => !(hasIssueYearCond q.conds)) = true := by
  constructor
  · unfold get_list_documents_by_expiration_year
    dsimp only
    split_ifs <;>
      simp [apply_ite Prod.snd, expYearCondsParams_default_year pt operator cy hop]
  · rw [issueYear_trace_eq]
    exact issueYearPhase_no_year be cy pt m org operator

/-- C4 witness: a concrete expiring-by-year call with `operator="equal"` and
no year carries the defaulted `YEAR(expirationDate) = 2026` predicate. -/
theorem C4_witness :
    ((get_list_documents_by_expiration_year pgnBE 2026 (some "PLO") none none (some "equal")
        (some "latest")).2.queries.all fun q =>
      q.conds.contains (expYearCondOf (some "equal") 2026)) = true :=
  (C4_amended pgnBE 2026 (some "PLO") none none (some "equal") (some "latest") (by decide)).1

/-- C4 counterexample: issued-by-year called with `operator="equal"` and no
year executes a query whose conditions contain no year predicate at all,
refuting the claim that the year predicate is added with a defaulted year. -/
theorem C4_counterexample :
    ((get_list_documents_by_issue_year pgnBE 2026 none none none (some "PGN") (some "equal")
        (some "latest")).2.queries.map fun q => hasIssueYearCond q.conds) = [false] := by
  decide

/-- C9 (amended): every query built by expiring-by-year pairs each
non-literal fragment with exactly one binding in the same order; for
issued-by-year the same holds except in the fallback requery, where the
`@organization` binding is retained in the parameter list after its fragment
was dropped (the title allow-list fragment is a literal with no binding). -/
theorem C9_amended (be : Backend) (cy : Int) (pt : Option String) (y m : Option Int)
    (org op ob : Option String) :
    ((get_list_documents_by_expiration_year be cy pt y org op ob).2.queries.all wellBound)
      = true ∧
    ((get_list_documents_by_issue_year be cy pt y m org op ob).2.queries.all fun q =>
      wellBound q || ((queryParamRefs q ++ ["@organization"]) == paramNames q)) = true := by
  constructor
  · unfold get_list_documents_by_expiration_year
    dsimp only
    split_ifs <;>
      simp [apply_ite Prod.snd, wellBound, queryParamRefs, paramNames, baseParamNames,
        List.filterMap_append, List.filterMap_cons, expYearCondsParams_refs,
        condParamName_orgEq, condParamName_titleIn]
  · rw [issueYear_trace_eq]
    exact issueYearPhase_queries_bound be cy pt y m org op

/-- C9 counterexample: an issued-by-year call whose exact path finds nothing
executes two queries; the fallback query is not well-bound — its parameter
list still carries `@organization` though no fragment references it. -/
theorem C9_counterexample :
    ((get_list_documents_by_issue_year emptyBE 2026 none none none (some "X") none
        (some "latest")).2.queries.map wellBound) = [true, false] := by
  decide

/-- C5 (amended): an organization whose trimmed form is in the catalog
resolves, in both issued-by-year (first query) and expiring-by-year, to an
equality predicate and an `@organization` binding whose value is the
original, untrimmed string — trimming applies only to the membership test,
not to the bound value. -/
theorem C5_amended (be : Backend) (cy : Int) (pt : Option String) (y m : Option Int)
    (operator ob : Option String) (org : String) (h1 : (org != "") = true)
    (h2 : (ensuredOrganizations be).contains (pyStrip org) = true) :
    (((get_list_documents_by_issue_year be cy pt y m (some org) operator ob).2.queries.head?).map
      (fun q => (q.conds.contains (Cond.orgEq org),
                 q.params.contains ⟨"@organization", PValue.str org⟩))) = some (true, true) ∧
    ((get_list_documents_by_expiration_year be cy pt y (some org) operator ob).2.queries.map
      (fun q => (q.conds.contains (Cond.orgEq org),
                 q.params.contains ⟨"@organization", PValue.str org⟩))) = [(true, true)] := by
  have ht : truthyStr (some org) = true := by simpa [truthyStr] using h1
  constructor
  · rw [issueYear_trace_eq]
    unfold issueYearPhase
    dsimp only [Option.getD_some]
    rw [if_pos ht, if_pos h2]
    split_ifs <;> simp
  · unfold get_list_documents_by_expiration_year
    dsimp only [Option.getD_some]
    rw [if_pos ht, if_pos h2]
    split_ifs <;> simp [apply_ite Prod.snd]

/-- C5 witness: the catalog member `PGN` yields the equality predicate and
binding bound to `PGN` itself in the first issued-by-year query. -/
theorem C5_witness :
    (((get_list_documents_by_issue_year pgnBE 2026 none none none (some "PGN") none
        (some "latest")).2.queries.head?).map
      (fun q => (q.conds.contains (Cond.orgEq "PGN"),
                 q.params.contains ⟨"@organization", PValue.str "PGN"⟩))) = some (true, true) :=
  (C5_amended pgnBE 2026 none none none none (some "latest") "PGN" (by decide) (by decide)).1

/-- C5 counterexample: with catalog `["PGN"]` and organization `" PGN"`
(leading space), the built query binds the untrimmed `" PGN"`, not the
trimmed `"PGN"` the claim requires. -/
theorem C5_counterexample :
    ((get_list_documents_by_expiration_year pgnBE 2026 (some "PLO") none (some " PGN") none
        (some "latest")).2.queries.map fun q =>
      (q.conds.contains (Cond.orgEq "PGN"), q.conds.contains (Cond.orgEq " PGN"),
       q.params.contains ⟨"@organization", PValue.str " PGN"⟩)) = [(false, true, true)] := by
  decide

/-- C6 (amended): for an organization not in the catalog, expiring-by-year
(like already-expired and all-by-organization) immediately issues the
top-10 trimmed-keyword title search and filters by `documentTitle IN` over
the returned `titleWithExtension` values; issued-by-year instead first
filters by `RegexMatch` on the filepath with the untrimmed organization, and
only when that query returns nothing does it fall back to the title search
and the title allow-list predicate. -/
theorem C6_amended (be : Backend) (cy : Int) (pt : Option String) (y m : Option Int)
    (operator ob : Option String) (org : String) (h1 : (org != "") = true)
    (h2 : (ensuredOrganizations be).contains (pyStrip org) = false) :
    ((get_list_documents_by_expiration_year be cy pt y (some org) operator ob).2.titleSearches
        = [expYearTitleCall org] ∧
      ((get_list_documents_by_expiration_year be cy pt y (some org) operator ob).2.queries.map
        fun q => q.conds.contains (Cond.titleIn
          ((be.titleSearch (expYearTitleCall org)).map fun d => d.titleWithExtension)))
        = [true]) ∧
    (((get_list_documents_by_issue_year be cy pt y m (some org) operator ob).2.titleSearches
        = [] ∧
       (get_list_documents_by_issue_year be cy pt y m (some org) operator ob).2.queries.map
         (fun q => q.conds.getLast?) = [some (Cond.regexFilepath org)]) ∨
     ((get_list_documents_by_issue_year be cy pt y m (some org) operator ob).2.titleSearches
        = [issueYearTitleCall org] ∧
       (get_list_documents_by_issue_year be cy pt y m (some org) operator ob).2.queries.map
         (fun q => q.conds.getLast?) =
         [some (Cond.regexFilepath org),
          some (Cond.titleIn ((be.titleSearch (issueYearTitleCall org)).map
            fun d => d.titleWithExtension))])) := by
  have ht : truthyStr (some org) = true := by simpa [truthyStr] using h1
  constructor
  · unfold get_list_documents_by_expiration_year
    dsimp only [Option.getD_some]
    rw [if_pos ht]
    simp only [h2, Bool.false_eq_true, if_false]
    split_ifs <;> simp [apply_ite Prod.snd]
  · rw [issueYear_trace_eq]
    unfold issueYearPhase
    dsimp only [Option.getD_some]
    rw [if_pos ht]
    simp only [h2, Bool.false_eq_true, if_false]
    by_cases h3 : (runQuery be ⟨.issueYearBase,
        (issueYearCondsParams pt y m operator cy).1 ++ [Cond.regexFilepath org],
        (issueYearCondsParams pt y m operator cy).2 ++
          [⟨"@organization", PValue.str org⟩]⟩).isEmpty = true
    · right
      rw [if_pos h3]
      split_ifs <;> simp [List.getLast?_concat]
    · left
      rw [if_neg h3]
      simp [List.getLast?_concat]

/-- C6 witness: the unknown organization `Foo` makes expiring-by-year issue
exactly the trimmed-keyword top-10 title search. -/
theorem C6_witness :
    (get_list_documents_by_expiration_year emptyBE 2026 none none (some "Foo") none
        (some "latest")).2.titleSearches = [expYearTitleCall "Foo"] :=
  ((C6_amended emptyBE 2026 none none none none (some "latest") "Foo" (by decide)
    (by decide)).1).1

/-- C6 counterexample: issued-by-year with unknown organization `Foo` and a
matching filepath regex performs no title search at all — its only query
filters by `RegexMatch` on the filepath — refuting the claim that every
operation resolves unknown organizations through the title index. -/
theorem C6_counterexample :
    (get_list_documents_by_issue_year regexBE 2026 none none none (some "Foo") none
        (some "latest")).2 =
      ⟨[⟨.issueYearBase, [.regexFilepath "Foo"], [⟨"@organization", .str "Foo"⟩]⟩],
       [], [], 1⟩ := by
  decide

/-- The superseded agent-module variant, by contrast, always issues exactly
one content search with the caller's keyword, even when the metadata query
finds nothing. -/
theorem agentlc_always_content_search (be : Backend) (org pt kw : String) :
    (AgentLC.get_list_all_documents_by_organization be org pt kw).2.contentSearches = [kw] := by
  unfold AgentLC.get_list_all_documents_by_organization
  simp only [apply_ite Prod.snd, ite_self]

/-- C7 (amended): issued-by-year truncates to 20 strictly after sorting, so
the kept items are exactly the `min(n,20)` items with the most extreme issue
dates under the requested ordering (every dropped item's date is dominated by
every kept item's date); all-by-organization, by contrast, never sorts and
applies its 30-item cap only in the `PLO` formatting branch — for any other
permit type the full result list is rendered untruncated. -/
theorem C7_amended (be : Backend) (cy : Int) (pt : Option String) (y m : Option Int)
    (org operator ob : Option String) (items : List Row) (tr : Trace)
    (pt2 org2 : String) (items2 : List Row)
    (h : issueYearPhase be pt y m org operator cy = (some items, tr))
    (hp2 : pt2 ≠ "PLO") :
    (get_list_documents_by_issue_year be cy pt y m org operator ob).1 =
      String.intercalate "\n"
        (issueCountHeader ((sortByDate (fun r => r.issueDate) ob items).take 20).length ::
          ((sortByDate (fun r => r.issueDate) ob items).take 20).map formatIssueItem) ∧
    ((sortByDate (fun r => r.issueDate) ob items).take 20).length = min items.length 20 ∧
    dominatesBy (fun r => r.issueDate) ob
      ((sortByDate (fun r => r.issueDate) ob items).drop 20)
      ((sortByDate (fun r => r.issueDate) ob items).take 20) = true ∧
    (all_by_org_result_list pt2 org2 items2).length = items2.length + 1 ∧
    (all_by_org_result_list "PLO" org2 items2).length = min items2.length 30 + 1 := by
  refine ⟨?_, ?_, sortByDate_drop_dominates _ _ _ _, ?_, ?_⟩
  · unfold get_list_documents_by_issue_year
    rw [h]
  · rw [List.length_take, sortByDate_length, Nat.min_comm]
  · by_cases he : items2.isEmpty = true
    · simp [all_by_org_result_list, he, List.isEmpty_iff.mp he]
    · simp [all_by_org_result_list, he, hp2]
  · by_cases he : items2.isEmpty = true
    · simp [all_by_org_result_list, he, List.isEmpty_iff.mp he]
    · simp [all_by_org_result_list, he, List.length_take, Nat.min_comm]

/-- C7 witness: instantiating the amended theorem at a concrete call whose
phase yields the empty item list. -/
theorem C7_witness :
    ((sortByDate (fun r => r.issueDate) (some "latest") ([] : List Row)).take 20).length =
      min ([] : List Row).length 20 :=
  (C7_amended emptyBE 0 none none none none none (some "latest") [] ⟨[], [], [], 0⟩
    "KKPR" "X" [] rfl (by decide)).2.1

/-- C7 counterexample: with 31 matching KKPR rows, the all-by-organization
query returns all 31 and the rendered result list has 32 entries (header
plus all 31 items) — more than the 31 the claimed 30-item cap allows, so
truncation is not applied for non-PLO permit types. -/
theorem C7_counterexample :
    ((get_list_all_documents_by_organization be31 "PGN" "KKPR" "x").2.queries.map
      fun q => runQuery be31 q) = [rows31] ∧
    (all_by_org_result_list "KKPR" "PGN" rows31).length = 32 ∧
    ¬ ((all_by_org_result_list "KKPR" "PGN" rows31).length ≤ 31) := by
  refine ⟨by decide, by decide, by decide⟩

end PermitMeta
